import Mathlib

/-!
Shallow embedding of the EMS data-warehouse ETL core
(src/etl/python: transform.py, load-dimensions.py, load-facts.py,
logging-utils.py, main.py).

Strings are modelled as Lean `String`/`List Char`, SQLite-backed tables as
Lean lists, Python `None` as `Option.none`, Python `float` results of the
duration arithmetic as `ℚ` (the second-differences involved are integers,
so `round(x, 2)` over `ℚ` agrees with CPython's float rounding on every
reachable value), and `datetime.strptime` as an explicit backtracking
matcher over the exact field regexes CPython's `_strptime` uses for
`%Y %m %d %H %M %S`.
-/

namespace EtlModel

/-! ## Python string primitives -/

/-- Whitespace set recognised by Python's `str.strip()` (ASCII part). -/
def pyIsSpace (c : Char) : Bool :=
  c = ' ' || c = '\t' || c = '\n' || c = '\x0d' || c = '\x0b' || c = '\x0c'

/-- Python `str.strip()` on a character list. -/
def stripChars (l : List Char) : List Char :=
  ((l.dropWhile pyIsSpace).reverse.dropWhile pyIsSpace).reverse

/-- Python `str.strip()`. -/
def pyStrip (s : String) : String :=
  String.mk (stripChars s.data)

/-- Python ASCII lower-casing, as used by `str.lower()` on the flag values. -/
def pyLower (s : String) : String :=
  String.mk (s.data.map Char.toLower)

/-- Truthiness of an optional string: Python treats `None` and `""` as falsy. -/
def strFalsy : Option String → Bool
  | none => true
  | some s => s = ""

/-! ## CPython `_strptime` field matchers

Each function returns the candidate `(value, rest)` pairs in the order the
corresponding regex alternation lists them; sequencing candidates in order
with first-success choice reproduces the regex engine's backtracking. -/

/-- Numeric value of an ASCII digit. -/
def digitVal (c : Char) : Nat := c.toNat - 48

/-- Matcher for `%Y`: exactly four digits. -/
def parseY4 : List Char → Option (Nat × List Char)
  | a :: b :: c :: d :: rest =>
      if a.isDigit && b.isDigit && c.isDigit && d.isDigit then
        some (digitVal a * 1000 + digitVal b * 100 + digitVal c * 10 + digitVal d, rest)
      else
        none
  | _ => none

/-- Candidates for `%m`, regex `1[0-2]|0[1-9]|[1-9]`. -/
def monthCands (l : List Char) : List (Nat × List Char) :=
  (match l with
   | '1' :: c :: rest =>
       if c = '0' || c = '1' || c = '2' then [(10 + digitVal c, rest)] else []
   | _ => []) ++
  (match l with
   | '0' :: c :: rest =>
       if c.isDigit && c ≠ '0' then [(digitVal c, rest)] else []
   | _ => []) ++
  (match l with
   | c :: rest =>
       if c.isDigit && c ≠ '0' then [(digitVal c, rest)] else []
   | _ => [])

/-- Candidates for `%d`, regex `3[0-1]|[1-2]\d|0[1-9]|[1-9]| [1-9]`. -/
def dayCands (l : List Char) : List (Nat × List Char) :=
  (match l with
   | '3' :: c :: rest =>
       if c = '0' || c = '1' then [(30 + digitVal c, rest)] else []
   | _ => []) ++
  (match l with
   | c1 :: c2 :: rest =>
       if (c1 = '1' || c1 = '2') && c2.isDigit then
         [(digitVal c1 * 10 + digitVal c2, rest)]
       else []
   | _ => []) ++
  (match l with
   | '0' :: c :: rest =>
       if c.isDigit && c ≠ '0' then [(digitVal c, rest)] else []
   | _ => []) ++
  (match l with
   | c :: rest =>
       if c.isDigit && c ≠ '0' then [(digitVal c, rest)] else []
   | _ => []) ++
  (match l with
   | ' ' :: c :: rest =>
       if c.isDigit && c ≠ '0' then [(digitVal c, rest)] else []
   | _ => [])

/-- Candidates for `%H`, regex `2[0-3]|[0-1]\d|\d`. -/
def hourCands (l : List Char) : List (Nat × List Char) :=
  (match l with
   | '2' :: c :: rest =>
       if c = '0' || c = '1' || c = '2' || c = '3' then [(20 + digitVal c, rest)] else []
   | _ => []) ++
  (match l with
   | c1 :: c2 :: rest =>
       if (c1 = '0' || c1 = '1') && c2.isDigit then
         [(digitVal c1 * 10 + digitVal c2, rest)]
       else []
   | _ => []) ++
  (match l with
   | c :: rest => if c.isDigit then [(digitVal c, rest)] else []
   | _ => [])

/-- Candidates for `%M`, regex `[0-5]\d|\d`. -/
def minuteCands (l : List Char) : List (Nat × List Char) :=
  (match l with
   | c1 :: c2 :: rest =>
       if c1.isDigit && digitVal c1 ≤ 5 && c2.isDigit then
         [(digitVal c1 * 10 + digitVal c2, rest)]
       else []
   | _ => []) ++
  (match l with
   | c :: rest => if c.isDigit then [(digitVal c, rest)] else []
   | _ => [])

/-- Candidates for `%S`, regex `6[0-1]|[0-5]\d|\d` (leap seconds are matched
by the regex but rejected by the `datetime` constructor). -/
def secondCands (l : List Char) : List (Nat × List Char) :=
  (match l with
   | '6' :: c :: rest =>
       if c = '0' || c = '1' then [(60 + digitVal c, rest)] else []
   | _ => []) ++
  (match l with
   | c1 :: c2 :: rest =>
       if c1.isDigit && digitVal c1 ≤ 5 && c2.isDigit then
         [(digitVal c1 * 10 + digitVal c2, rest)]
       else []
   | _ => []) ++
  (match l with
   | c :: rest => if c.isDigit then [(digitVal c, rest)] else []
   | _ => [])

/-- Literal character in a format string. -/
def lit (c : Char) : List Char → Option (List Char)
  | x :: rest => if x = c then some rest else none
  | _ => none

/-- A literal blank in a `strptime` format is compiled to `\s+`: one or
more whitespace characters (greedily consumed; the following token is
always a digit field, so greediness is unambiguous). -/
def wsPlus : List Char → Option (List Char)
  | c :: rest => if pyIsSpace c then some (rest.dropWhile pyIsSpace) else none
  | [] => none

/-- The literal `T` separator; `strptime` compiles its pattern with
`IGNORECASE`, so a lower-case `t` also matches. -/
def litT : List Char → Option (List Char)
  | c :: rest => if c = 'T' || c = 't' then some rest else none
  | [] => none

/-- First-success choice over ordered candidates (regex backtracking). -/
def firstSome (f : α → Option β) : List α → Option β
  | [] => none
  | a :: l =>
      match f a with
      | some b => some b
      | none => firstSome f l

/-! ## Calendar validation (the `datetime` constructor) -/

/-- Gregorian leap-year rule, as in Python's `calendar`/`datetime`. -/
def isLeapYear (y : Nat) : Bool :=
  y % 4 = 0 && (y % 100 ≠ 0 || y % 400 = 0)

/-- Days in a month of a given year. -/
def daysInMonth (y m : Nat) : Nat :=
  if m = 2 then (if isLeapYear y then 29 else 28)
  else if m = 4 || m = 6 || m = 9 || m = 11 then 30
  else 31

/-- Parsed calendar date, the date part of a Python `datetime`. -/
structure PyDate where
  year : Nat
  month : Nat
  day : Nat
  deriving DecidableEq, Repr

/-- Parsed Python `datetime` value (whole-second resolution, as produced by
every format the ETL uses). -/
structure PyDateTime where
  year : Nat
  month : Nat
  day : Nat
  hour : Nat
  minute : Nat
  second : Nat
  deriving DecidableEq, Repr

/-- Validation performed by the `datetime.date` constructor: `strptime`
raises `ValueError` outside these bounds. -/
def mkDate (y m d : Nat) : Option PyDate :=
  if 1 ≤ y && y ≤ 9999 && 1 ≤ m && m ≤ 12 && 1 ≤ d && d ≤ daysInMonth y m then
    some ⟨y, m, d⟩
  else
    none

/-- Validation performed by the `datetime.datetime` constructor. -/
def mkDateTime (y m d h mi s : Nat) : Option PyDateTime :=
  if 1 ≤ y && y ≤ 9999 && 1 ≤ m && m ≤ 12 && 1 ≤ d && d ≤ daysInMonth y m
      && h ≤ 23 && mi ≤ 59 && s ≤ 59 then
    some ⟨y, m, d, h, mi, s⟩
  else
    none

/-! ## `datetime.strptime` for the formats the ETL uses -/

/-- Date separated by a fixed character: `%Y<sep>%m<sep>%d`. -/
def parseYmdWith (sep : Char) (l : List Char) : Option PyDate :=
  match parseY4 l with
  | none => none
  | some (y, r1) =>
      match lit sep r1 with
      | none => none
      | some r2 =>
          firstSome (fun (mc : Nat × List Char) =>
            match lit sep mc.2 with
            | none => none
            | some r3 =>
                firstSome (fun (dc : Nat × List Char) =>
                  if dc.2.isEmpty then mkDate y mc.1 dc.1 else none)
                  (dayCands r3))
            (monthCands r2)

/-- Format `%m/%d/%Y`. -/
def parseMdySlash (l : List Char) : Option PyDate :=
  firstSome (fun (mc : Nat × List Char) =>
    match lit '/' mc.2 with
    | none => none
    | some r1 =>
        firstSome (fun (dc : Nat × List Char) =>
          match lit '/' dc.2 with
          | none => none
          | some r2 =>
              match parseY4 r2 with
              | some (y, r3) => if r3.isEmpty then mkDate y mc.1 dc.1 else none
              | none => none)
          (dayCands r1))
    (monthCands l)

/-- The three date formats `create_date_key` attempts, in source order:
`%Y-%m-%d`, `%m/%d/%Y`, `%Y/%m/%d`. -/
def strptimeDateFirst (l : List Char) : Option PyDate :=
  match parseYmdWith '-' l with
  | some d => some d
  | none =>
      match parseMdySlash l with
      | some d => some d
      | none => parseYmdWith '/' l

/-- Time-of-day part `%H:%M[:%S]` ending the string. -/
def parseTimePart (withSec : Bool) (y m d : Nat) (l : List Char) : Option PyDateTime :=
  firstSome (fun (hc : Nat × List Char) =>
    match lit ':' hc.2 with
    | none => none
    | some r1 =>
        firstSome (fun (mc : Nat × List Char) =>
          if withSec then
            match lit ':' mc.2 with
            | none => none
            | some r2 =>
                firstSome (fun (sc : Nat × List Char) =>
                  if sc.2.isEmpty then mkDateTime y m d hc.1 mc.1 sc.1 else none)
                  (secondCands r2)
          else
            if mc.2.isEmpty then mkDateTime y m d hc.1 mc.1 0 else none)
          (minuteCands r1))
    (hourCands l)

/-- Datetime format `%Y-%m-%d<sep>%H:%M:%S` (with `sep` the compiled
matcher of the blank or of `T`), or `%Y-%m-%d %H:%M` when `withSec` is
false. -/
def parseYmdTime (sep : List Char → Option (List Char)) (withSec : Bool)
    (l : List Char) : Option PyDateTime :=
  match parseY4 l with
  | none => none
  | some (y, r1) =>
      match lit '-' r1 with
      | none => none
      | some r2 =>
          firstSome (fun (mc : Nat × List Char) =>
            match lit '-' mc.2 with
            | none => none
            | some r3 =>
                firstSome (fun (dc : Nat × List Char) =>
                  match sep dc.2 with
                  | none => none
                  | some r4 => parseTimePart withSec y mc.1 dc.1 r4)
                  (dayCands r3))
            (monthCands r2)

/-- Date-only format `%Y-%m-%d` read as a midnight `datetime`, as
`datetime.strptime` produces for `calculate_time_diff_minutes`. -/
def parseYmdAsMidnight (l : List Char) : Option PyDateTime :=
  match parseYmdWith '-' l with
  | some d => mkDateTime d.year d.month d.day 0 0 0
  | none => none

/-- Format list of `calculate_time_diff_minutes`, in source order:
`%Y-%m-%d`, `%Y-%m-%d %H:%M:%S`, `%Y-%m-%dT%H:%M:%S`; the first format
that matches wins, independently for each endpoint. -/
def strptimeDiffFirst (l : List Char) : Option PyDateTime :=
  match parseYmdAsMidnight l with
  | some dt => some dt
  | none =>
      match parseYmdTime wsPlus true l with
      | some dt => some dt
      | none => parseYmdTime litT true l

/-- Format list of `create_time_key`, in source order:
`%Y-%m-%d %H:%M:%S`, `%Y-%m-%dT%H:%M:%S`, `%Y-%m-%d %H:%M`. -/
def strptimeTimeKeyFirst (l : List Char) : Option PyDateTime :=
  match parseYmdTime wsPlus true l with
  | some dt => some dt
  | none =>
      match parseYmdTime litT true l with
      | some dt => some dt
      | none => parseYmdTime wsPlus false l

/-! ## transform.py -/

/-- Python `float()` on a decimal literal string (optional sign, digits,
optional fraction, optional exponent, surrounding whitespace). The exotic
inputs `float()` also accepts (`inf`, `nan`, digit-group underscores) do
not occur in this data and are not modelled. -/
def pyFloat? (s : String) : Option ℚ :=
  let l := stripChars s.data
  let signed : ℚ × List Char :=
    match l with
    | '+' :: r => (1, r)
    | '-' :: r => (-1, r)
    | _ => (1, l)
  let ip := signed.2.takeWhile Char.isDigit
  let l2 := signed.2.dropWhile Char.isDigit
  let hasDot := match l2 with | '.' :: _ => true | _ => false
  let l2' := match l2 with | '.' :: r => r | _ => l2
  let fp := if hasDot then l2'.takeWhile Char.isDigit else []
  let l3 := if hasDot then l2'.dropWhile Char.isDigit else l2
  if ip.isEmpty && fp.isEmpty then none
  else
    let mant : ℚ :=
      (ip.foldl (fun acc c => 10 * acc + digitVal c) 0 : Nat) +
        (fp.foldl (fun acc c => 10 * acc + digitVal c) 0 : Nat) / ((10 : ℚ) ^ fp.length)
    match l3 with
    | [] => some (signed.1 * mant)
    | e :: r =>
        if e = 'e' || e = 'E' then
          let esigned : Bool × List Char :=
            match r with
            | '+' :: r2 => (false, r2)
            | '-' :: r2 => (true, r2)
            | _ => (false, r)
          let ed := esigned.2.takeWhile Char.isDigit
          let rest := esigned.2.dropWhile Char.isDigit
          if ed.isEmpty || !rest.isEmpty then none
          else
            let ev : Nat := ed.foldl (fun acc c => 10 * acc + digitVal c) 0
            let scale : ℚ := if esigned.1 then 1 / (10 : ℚ) ^ ev else (10 : ℚ) ^ ev
            some (signed.1 * mant * scale)
        else none

/-- Function `clean_text` of transform.py: trim, and map the empty result
to `None`. -/
def clean_text (value : Option String) : Option String :=
  match value with
  | none => none
  | some s =>
      let cleaned := pyStrip s
      if cleaned = "" then none else some cleaned

/-- Default yes-set of `parse_flag`. -/
def defaultYesValues : List String := ["yes", "y", "true", "1", "1.0"]

/-- Function `parse_flag` of transform.py. The staging store hands the
pipeline only strings or `NULL`, so the `isinstance(value, (int, float))`
branch is unreachable there and the string branch is the model. -/
def parse_flag (value : Option String) (yesValues : List String) : Nat :=
  match value with
  | none => 0
  | some s => if pyLower (pyStrip s) ∈ yesValues then 1 else 0

/-- Function `create_date_key` of transform.py: `-1` for falsy input,
otherwise the first of `%Y-%m-%d`, `%m/%d/%Y`, `%Y/%m/%d` that parses the
first ten characters of the trimmed string, rendered as `YYYYMMDD`. -/
def create_date_key (dateStr : Option String) : Int :=
  match dateStr with
  | none => -1
  | some s =>
      if s = "" then -1
      else
        match strptimeDateFirst ((stripChars s.data).take 10) with
        | some d => Int.ofNat (d.year * 10000 + d.month * 100 + d.day)
        | none => -1

/-- Function `create_time_key` of transform.py: `-1` for falsy input, `0`
for any trimmed value of length exactly 10, otherwise minutes from
midnight via the first matching datetime format, or `-1`. -/
def create_time_key (datetimeStr : Option String) : Int :=
  match datetimeStr with
  | none => -1
  | some s =>
      if s = "" then -1
      else
        let t := stripChars s.data
        if t.length = 10 then 0
        else
          match strptimeTimeKeyFirst t with
          | some dt => Int.ofNat (dt.hour * 60 + dt.minute)
          | none => -1

/-- Days in all years before year `y + 1`, i.e. `date.toordinal`
support: the proleptic Gregorian day count `datetime` subtraction uses. -/
def daysBeforeYears (y : Nat) : Nat :=
  365 * y + y / 4 + y / 400 - y / 100

/-- Days in the months of year `y` strictly before month `m`. -/
def daysBeforeMonth (y m : Nat) : Nat :=
  ((List.range (m - 1)).map (fun k => daysInMonth y (k + 1))).sum

/-- Python `date.toordinal`-style absolute day number. -/
def dateOrdinal (y m d : Nat) : Nat :=
  daysBeforeYears (y - 1) + daysBeforeMonth y m + (d - 1)

/-- Absolute timestamp in seconds of a parsed datetime; differences of
these are exactly `(end - start).total_seconds()`. -/
def dtTotalSeconds (x : PyDateTime) : Nat :=
  dateOrdinal x.year x.month x.day * 86400 + x.hour * 3600 + x.minute * 60 + x.second

/-- Rounding to two decimals. On every value this pipeline can produce the
argument is `n / 60` for an integer `n`, whose distance from every
half-way point is at least `1/600`, so CPython's banker float `round(x, 2)`
agrees with this exact rational rounding. -/
def round2 (q : ℚ) : ℚ :=
  ((round (q * 100) : ℤ) : ℚ) / 100

/-- Function `calculate_time_diff_minutes` of transform.py. -/
def calculate_time_diff_minutes (startDt endDt : Option String) : Option ℚ :=
  match startDt, endDt with
  | some s, some e =>
      if s = "" || e = "" then none
      else
        match strptimeDiffFirst (stripChars s.data), strptimeDiffFirst (stripChars e.data) with
        | some st, some en =>
            let diffSecs : Int := (dtTotalSeconds en : Int) - (dtTotalSeconds st : Int)
            if 0 ≤ diffSecs then some (round2 ((diffSecs : ℚ) / 60)) else none
        | _, _ => none
  | _, _ => none

/-- Raw staging record as read back by the transform-and-load loop: the
tracked source columns (all untyped text, `NULL` allowed) plus the audit
columns `_source_row_num` and `_source_file`. -/
structure RawRecord where
  INCIDENT_DT : Option String := none
  INCIDENT_COUNTY : Option String := none
  CHIEF_COMPLAINT_DISPATCH : Option String := none
  CHIEF_COMPLAINT_ANATOMIC_LOC : Option String := none
  PRIMARY_SYMPTOM : Option String := none
  PROVIDER_IMPRESSION_PRIMARY : Option String := none
  DISPOSITION_ED : Option String := none
  DISPOSITION_HOSPITAL : Option String := none
  DESTINATION_TYPE : Option String := none
  PROVIDER_TYPE_STRUCTURE : Option String := none
  PROVIDER_TYPE_SERVICE : Option String := none
  PROVIDER_TYPE_SERVICE_LEVEL : Option String := none
  INJURY_FLG : Option String := none
  NALOXONE_GIVEN_FLG : Option String := none
  MEDICATION_GIVEN_OTHER_FLG : Option String := none
  PROVIDER_TO_SCENE_MINS : Option String := none
  PROVIDER_TO_DESTINATION_MINS : Option String := none
  UNIT_NOTIFIED_BY_DISPATCH_DT : Option String := none
  UNIT_ARRIVED_ON_SCENE_DT : Option String := none
  UNIT_ARRIVED_TO_PATIENT_DT : Option String := none
  UNIT_LEFT_SCENE_DT : Option String := none
  PATIENT_ARRIVED_DESTINATION_DT : Option String := none
  source_row_num : Option Int := none
  source_file : Option String := none
  deriving DecidableEq, Repr

/-- The `cleaned_data` dictionary built by `transform_record`. -/
structure CleanedData where
  incident_dt : Option String
  incident_county : Option String
  chief_complaint_dispatch : Option String
  chief_complaint_anatomic_loc : Option String
  primary_symptom : Option String
  provider_impression_primary : Option String
  disposition_ed : Option String
  disposition_hospital : Option String
  destination_type : Option String
  provider_type_structure : Option String
  provider_type_service : Option String
  provider_type_service_level : Option String
  injury_flg : Nat
  naloxone_given_flg : Nat
  medication_given_flg : Nat
  provider_to_scene_mins : Option ℚ
  provider_to_dest_mins : Option ℚ
  unit_notified_dt : Option String
  unit_arrived_scene_dt : Option String
  unit_arrived_patient_dt : Option String
  unit_left_scene_dt : Option String
  patient_arrived_dest_dt : Option String
  source_row_num : Option Int
  source_file : Option String
  deriving DecidableEq, Repr

/-- The `derived_data` dictionary built by `transform_record`. -/
structure DerivedData where
  date_key : Int
  time_of_day_key : Int
  dispatch_to_arrival_mins : Option ℚ
  arrival_to_patient_mins : Option ℚ
  scene_time_mins : Option ℚ
  total_call_time_mins : Option ℚ
  incident_count : Nat
  deriving DecidableEq, Repr

/-- The `TransformResult` dataclass of transform.py. -/
structure TransformResult where
  cleaned_data : CleanedData
  derived_data : DerivedData
  errors : List (String × String × String)
  is_valid : Bool
  deriving DecidableEq, Repr

/-- Rendering of an optional string inside an f-string: `None` or the
bare value. -/
def pyShowOpt : Option String → String
  | none => "None"
  | some s => s

/-- Numeric-field cleaning inside `transform_record`: parse as float when
truthy and non-blank, treat a parse failure as `None`, then clear
negative (truthy) values. -/
def cleanNumeric (o : Option String) : Option ℚ :=
  match o with
  | none => none
  | some s =>
      if s = "" || pyStrip s = "" then none
      else
        match pyFloat? s with
        | none => none
        | some v => if v ≠ 0 ∧ v < 0 then none else some v

/-- Function `transform_record` of transform.py. -/
def transform_record (record : RawRecord) : TransformResult :=
  let cleaned : CleanedData := {
    incident_dt := clean_text record.INCIDENT_DT
    incident_county := clean_text record.INCIDENT_COUNTY
    chief_complaint_dispatch := clean_text record.CHIEF_COMPLAINT_DISPATCH
    chief_complaint_anatomic_loc := clean_text record.CHIEF_COMPLAINT_ANATOMIC_LOC
    primary_symptom := clean_text record.PRIMARY_SYMPTOM
    provider_impression_primary := clean_text record.PROVIDER_IMPRESSION_PRIMARY
    disposition_ed := clean_text record.DISPOSITION_ED
    disposition_hospital := clean_text record.DISPOSITION_HOSPITAL
    destination_type := clean_text record.DESTINATION_TYPE
    provider_type_structure := clean_text record.PROVIDER_TYPE_STRUCTURE
    provider_type_service := clean_text record.PROVIDER_TYPE_SERVICE
    provider_type_service_level := clean_text record.PROVIDER_TYPE_SERVICE_LEVEL
    injury_flg := parse_flag record.INJURY_FLG ["yes", "y", "true", "1"]
    naloxone_given_flg := parse_flag record.NALOXONE_GIVEN_FLG defaultYesValues
    medication_given_flg := parse_flag record.MEDICATION_GIVEN_OTHER_FLG defaultYesValues
    provider_to_scene_mins := cleanNumeric record.PROVIDER_TO_SCENE_MINS
    provider_to_dest_mins := cleanNumeric record.PROVIDER_TO_DESTINATION_MINS
    unit_notified_dt := clean_text record.UNIT_NOTIFIED_BY_DISPATCH_DT
    unit_arrived_scene_dt := clean_text record.UNIT_ARRIVED_ON_SCENE_DT
    unit_arrived_patient_dt := clean_text record.UNIT_ARRIVED_TO_PATIENT_DT
    unit_left_scene_dt := clean_text record.UNIT_LEFT_SCENE_DT
    patient_arrived_dest_dt := clean_text record.PATIENT_ARRIVED_DESTINATION_DT
    source_row_num := record.source_row_num
    source_file := record.source_file }
  let derived : DerivedData := {
    date_key := create_date_key cleaned.incident_dt
    time_of_day_key := create_time_key cleaned.unit_notified_dt
    dispatch_to_arrival_mins :=
      calculate_time_diff_minutes cleaned.unit_notified_dt cleaned.unit_arrived_scene_dt
    arrival_to_patient_mins :=
      calculate_time_diff_minutes cleaned.unit_arrived_scene_dt cleaned.unit_arrived_patient_dt
    scene_time_mins :=
      calculate_time_diff_minutes cleaned.unit_arrived_scene_dt cleaned.unit_left_scene_dt
    total_call_time_mins :=
      calculate_time_diff_minutes cleaned.unit_notified_dt cleaned.patient_arrived_dest_dt
    incident_count := 1 }
  let errors : List (String × String × String) :=
    if derived.date_key = -1 then
      [("INCIDENT_DT", "INVALID_DATE", "Cannot parse date: " ++ pyShowOpt record.INCIDENT_DT)]
    else []
  { cleaned_data := cleaned
    derived_data := derived
    errors := errors
    is_valid := (errors.filter (fun e => e.1 = "INCIDENT_DT")).length == 0 }

/-! ## load-dimensions.py

A dimension is modelled by its in-memory cache (natural key to surrogate
key, as the Python dict), its backing table (rows carry further immutable
attribute columns that no claim reads, so a row is represented by its
surrogate key and natural key), and the next `AUTOINCREMENT` rowid. -/

structure DimState where
  cache : List (String × Int)
  table : List (Int × String)
  nextId : Int
  deriving DecidableEq, Repr

/-- Python dict lookup on the cache association list. -/
def cacheLookup : List (String × Int) → String → Option Int
  | [], _ => none
  | (n, v) :: rest, k => if n = k then some v else cacheLookup rest k

/-- The shared body of `get_or_create_county`, `get_or_create_complaint`,
`get_or_create_anatomic`, `get_or_create_symptom`,
`get_or_create_impression`, `get_or_create_disposition`,
`get_or_create_destination` and `get_or_create_service_level`, which are
textually identical up to table and cache names: falsy natural key
resolves to `-1` with no lookup and no insert; a cache hit returns the
cached surrogate; a miss inserts a row, caches the new rowid and returns
it. -/
def get_or_create (st : DimState) (name : Option String) : Int × DimState :=
  match name with
  | none => (-1, st)
  | some n =>
      if n = "" then (-1, st)
      else
        match cacheLookup st.cache n with
        | some key => (key, st)
        | none =>
            let key := st.nextId
            (key,
             { cache := (n, key) :: st.cache
               table := st.table ++ [(key, n)]
               nextId := st.nextId + 1 })

/-- Method `get_or_create_provider_org`: the composite lookup key is
`structure || service-or-empty`; only a falsy structure short-circuits to
`-1`. -/
def get_or_create_provider_org (st : DimState) (struct service : Option String) :
    Int × DimState :=
  match struct with
  | none => (-1, st)
  | some n =>
      if n = "" then (-1, st)
      else
        let lookupKey := n ++ "||" ++ (match service with
          | some sv => if sv = "" then "" else sv
          | none => "")
        match cacheLookup st.cache lookupKey with
        | some key => (key, st)
        | none =>
            let key := st.nextId
            (key,
             { cache := (lookupKey, key) :: st.cache
               table := st.table ++ [(key, lookupKey)]
               nextId := st.nextId + 1 })

/-- Python `date` comparison used by the generation loop. -/
def dateLe (a b : PyDate) : Bool :=
  decide (a.year < b.year ∨ (a.year = b.year ∧
    (a.month < b.month ∨ (a.month = b.month ∧ a.day ≤ b.day))))

/-- Python `date + timedelta(days=1)`. -/
def nextDay (d : PyDate) : PyDate :=
  if d.day < daysInMonth d.year d.month then ⟨d.year, d.month, d.day + 1⟩
  else if d.month < 12 then ⟨d.year, d.month + 1, 1⟩
  else ⟨d.year + 1, 1, 1⟩

/-- The `while current <= end_date` generation loop of
`_populate_date_dimension`, given enough fuel to cover the span. -/
def genDates : Nat → PyDate → PyDate → List PyDate
  | 0, _, _ => []
  | fuel + 1, cur, last =>
      if dateLe cur last then cur :: genDates fuel (nextDay cur) last else []

/-- Integer `YYYYMMDD` date key of a calendar day. -/
def dateKeyOfDate (d : PyDate) : Int :=
  Int.ofNat (d.year * 10000 + d.month * 100 + d.day)

/-- The date keys inserted by `_populate_date_dimension`: one per calendar
day from 2014-01-01 through 2030-12-31. The further per-row attributes
(weekday, month name, quarter, weekend flag) are not read by any claim
and are not modelled; a table is represented by its list of keys. -/
def dateDimKeys : List Int :=
  (genDates 6300 ⟨2014, 1, 1⟩ ⟨2030, 12, 31⟩).map dateKeyOfDate

/-- Method `_populate_date_dimension`: skip when any row with
`date_key > 0` exists, otherwise insert the generated calendar rows. -/
def populate_date_dimension (table : List Int) : List Int :=
  if 0 < (table.filter (fun k => 0 < k)).length then table
  else table ++ dateDimKeys

/-- The 1440 time keys inserted by `_populate_time_dimension` (per-minute
attribute columns not read by any claim are omitted, as for the date
dimension). -/
def timeDimKeys : List Int :=
  (List.range 1440).map Int.ofNat

/-- Method `_populate_time_dimension`: skip when any row with
`time_of_day_key >= 0` exists, otherwise insert the 1440 minute rows. -/
def populate_time_dimension (table : List Int) : List Int :=
  if 0 < (table.filter (fun k => 0 ≤ k)).length then table
  else table ++ timeDimKeys

/-! ## logging-utils.py -/

/-- The `ErrorRecord` dataclass of logging-utils.py. -/
structure ErrorRecord where
  source_row_num : Option Int
  error_type : String
  error_message : String
  column_name : Option String := none
  column_value : Option String := none
  source_data : Option String := none
  deriving DecidableEq, Repr

/-- Method `ETLLogger.log_error`: appends one row to the in-memory buffer
and one row to `ETL_ERROR_LOG` (both modelled by the same list). -/
def log_error (errorLog : List ErrorRecord) (e : ErrorRecord) : List ErrorRecord :=
  errorLog ++ [e]

/-! ## main.py, step 5 (transform and load) -/

/-- One row of `FACT_EMS_INCIDENT` as assembled by `run_etl` (audit
columns `_source_file`/`_row_created_dt` added by `load_fact_batch` are
constant per batch and omitted). -/
structure FactRecord where
  date_key : Int
  time_of_day_key : Int
  county_key : Int
  chief_complaint_key : Int
  anatomic_location_key : Int
  symptom_key : Int
  provider_impression_key : Int
  disposition_ed_key : Int
  disposition_hospital_key : Int
  destination_type_key : Int
  provider_org_key : Int
  service_level_key : Int
  provider_to_scene_mins : Option ℚ
  provider_to_dest_mins : Option ℚ
  dispatch_to_arrival_mins : Option ℚ
  arrival_to_patient_mins : Option ℚ
  scene_time_mins : Option ℚ
  total_call_time_mins : Option ℚ
  injury_flg : Nat
  naloxone_given_flg : Nat
  medication_given_flg : Nat
  incident_count : Nat
  unit_notified_dt : Option String
  unit_arrived_scene_dt : Option String
  unit_arrived_patient_dt : Option String
  unit_left_scene_dt : Option String
  patient_arrived_dest_dt : Option String
  source_row_num : Option Int
  deriving DecidableEq, Repr

/-- The nine dimension caches owned by one `DimensionLoader`. The ED and
hospital dispositions share the single disposition dimension, exactly as
in the source. -/
structure LoaderState where
  county : DimState
  complaint : DimState
  anatomic : DimState
  symptom : DimState
  impression : DimState
  disposition : DimState
  destination : DimState
  provider_org : DimState
  service_level : DimState
  deriving DecidableEq, Repr

/-- The `fact_record` dictionary construction inside `run_etl`, with the
dimension resolutions performed in source order (the two disposition
lookups hit the same dimension one after the other). -/
def build_fact_record (dl : LoaderState) (t : TransformResult) :
    FactRecord × LoaderState :=
  let c := t.cleaned_data
  let d := t.derived_data
  let r1 := get_or_create dl.county c.incident_county
  let r2 := get_or_create dl.complaint c.chief_complaint_dispatch
  let r3 := get_or_create dl.anatomic c.chief_complaint_anatomic_loc
  let r4 := get_or_create dl.symptom c.primary_symptom
  let r5 := get_or_create dl.impression c.provider_impression_primary
  let r6 := get_or_create dl.disposition c.disposition_ed
  let r7 := get_or_create r6.2 c.disposition_hospital
  let r8 := get_or_create dl.destination c.destination_type
  let r9 := get_or_create_provider_org dl.provider_org c.provider_type_structure
      c.provider_type_service
  let r10 := get_or_create dl.service_level c.provider_type_service_level
  ({ date_key := d.date_key
     time_of_day_key := d.time_of_day_key
     county_key := r1.1
     chief_complaint_key := r2.1
     anatomic_location_key := r3.1
     symptom_key := r4.1
     provider_impression_key := r5.1
     disposition_ed_key := r6.1
     disposition_hospital_key := r7.1
     destination_type_key := r8.1
     provider_org_key := r9.1
     service_level_key := r10.1
     provider_to_scene_mins := c.provider_to_scene_mins
     provider_to_dest_mins := c.provider_to_dest_mins
     dispatch_to_arrival_mins := d.dispatch_to_arrival_mins
     arrival_to_patient_mins := d.arrival_to_patient_mins
     scene_time_mins := d.scene_time_mins
     total_call_time_mins := d.total_call_time_mins
     injury_flg := c.injury_flg
     naloxone_given_flg := c.naloxone_given_flg
     medication_given_flg := c.medication_given_flg
     incident_count := d.incident_count
     unit_notified_dt := c.unit_notified_dt
     unit_arrived_scene_dt := c.unit_arrived_scene_dt
     unit_arrived_patient_dt := c.unit_arrived_patient_dt
     unit_left_scene_dt := c.unit_left_scene_dt
     patient_arrived_dest_dt := c.patient_arrived_dest_dt
     source_row_num := c.source_row_num },
   { county := r1.2
     complaint := r2.2
     anatomic := r3.2
     symptom := r4.2
     impression := r5.2
     disposition := r7.2
     destination := r8.2
     provider_org := r9.2
     service_level := r10.2 })

/-- Outcome of the step-5 loop over the staged records: the fact rows
handed to `load_fact_batch`, the `rejected_count` counter, the content of
`ETL_ERROR_LOG` accumulated during the loop, and the final dimension
state. -/
structure Step5Result where
  fact_records : List FactRecord
  rejected_count : Nat
  error_log : List ErrorRecord
  dims : LoaderState
  deriving DecidableEq, Repr

/-- The per-record body of the step-5 loop of `run_etl`: transform; on an
invalid result increment `rejected_count` and `continue`; otherwise
resolve dimensions and collect the fact record. The loop body contains no
call to `ETLLogger.log_error` (nor does any other statement of
`run_etl`), so the error-log accumulator is threaded through unchanged. -/
def run_transform_load :
    List RawRecord → LoaderState → List FactRecord → Nat → List ErrorRecord → Step5Result
  | [], dl, facts, rej, errlog => ⟨facts, rej, errlog, dl⟩
  | r :: rest, dl, facts, rej, errlog =>
      let t := transform_record r
      if !t.is_valid then
        run_transform_load rest dl facts (rej + 1) errlog
      else
        let fr := build_fact_record dl t
        run_transform_load rest fr.2 (facts ++ [fr.1]) rej errlog

/-- Step 5 of `run_etl` on a batch of staged records, started with the
empty error buffer `start_run` leaves behind. -/
def run_etl_step5 (records : List RawRecord) (dl : LoaderState) : Step5Result :=
  run_transform_load records dl [] 0 []

/-- Loader state with all nine dimension caches and tables empty and
rowids starting at 1, used for concrete end-to-end evaluations. -/
def emptyLoader : LoaderState :=
  ⟨⟨[], [], 1⟩, ⟨[], [], 1⟩, ⟨[], [], 1⟩, ⟨[], [], 1⟩, ⟨[], [], 1⟩,
   ⟨[], [], 1⟩, ⟨[], [], 1⟩, ⟨[], [], 1⟩, ⟨[], [], 1⟩⟩

/-! ## Well-formedness of parsed values

Every `strptime` success passes through `mkDate`/`mkDateTime`, the model
of the `datetime` constructor, so parsed components always lie in
calendar range. -/

/-- Calendar bounds enforced on a parsed date. -/
def dateOk (d : PyDate) : Prop :=
  1 ≤ d.year ∧ d.year ≤ 9999 ∧ 1 ≤ d.month ∧ d.month ≤ 12 ∧ 1 ≤ d.day ∧ d.day ≤ 31

/-- Bounds enforced on a parsed datetime. -/
def dtOk (x : PyDateTime) : Prop :=
  1 ≤ x.year ∧ x.year ≤ 9999 ∧ 1 ≤ x.month ∧ x.month ≤ 12 ∧ 1 ≤ x.day ∧ x.day ≤ 31 ∧
    x.hour ≤ 23 ∧ x.minute ≤ 59 ∧ x.second ≤ 59

theorem daysInMonth_le (y m : Nat) : daysInMonth y m ≤ 31 := by
  unfold daysInMonth
  split_ifs <;> simp

theorem firstSome_eq_some {f : α → Option β} {l : List α} {b : β}
    (h : firstSome f l = some b) : ∃ a ∈ l, f a = some b := by
  induction l with
  | nil => simp [firstSome] at h
  | cons a l ih =>
      rw [firstSome] at h
      cases hf : f a with
      | some c =>
          rw [hf] at h
          exact ⟨a, List.mem_cons_self a l, hf.trans h⟩
      | none =>
          rw [hf] at h
          obtain ⟨x, hx, hfx⟩ := ih h
          exact ⟨x, List.mem_cons_of_mem a hx, hfx⟩

theorem mkDate_ok {y m d : Nat} {r : PyDate} (h : mkDate y m d = some r) : dateOk r := by
  unfold mkDate at h
  split_ifs at h with hb
  · cases h
    simp only [Bool.and_eq_true, decide_eq_true_eq] at hb
    refine ⟨hb.1.1.1.1.1, hb.1.1.1.1.2, hb.1.1.1.2, hb.1.1.2, hb.1.2, ?_⟩
    exact le_trans hb.2 (daysInMonth_le y m)

theorem mkDateTime_ok {y m d hh mi s : Nat} {r : PyDateTime}
    (h : mkDateTime y m d hh mi s = some r) : dtOk r := by
  unfold mkDateTime at h
  split_ifs at h with hb
  · cases h
    simp only [Bool.and_eq_true, decide_eq_true_eq] at hb
    obtain ⟨⟨⟨⟨⟨⟨⟨⟨h1, h2⟩, h3⟩, h4⟩, h5⟩, h6⟩, h7⟩, h8⟩, h9⟩ := hb
    exact ⟨h1, h2, h3, h4, h5, le_trans h6 (daysInMonth_le y m), h7, h8, h9⟩

theorem parseYmdWith_ok {sep : Char} {l : List Char} {d : PyDate}
    (h : parseYmdWith sep l = some d) : dateOk d := by
  unfold parseYmdWith at h
  split at h
  · exact absurd h (by simp)
  · split at h
    · exact absurd h (by simp)
    · obtain ⟨mc, _, hmc⟩ := firstSome_eq_some h
      split at hmc
      · exact absurd hmc (by simp)
      · obtain ⟨dc, _, hdc⟩ := firstSome_eq_some hmc
        split at hdc
        · exact mkDate_ok hdc
        · exact absurd hdc (by simp)

theorem parseMdySlash_ok {l : List Char} {d : PyDate}
    (h : parseMdySlash l = some d) : dateOk d := by
  unfold parseMdySlash at h
  obtain ⟨mc, _, hmc⟩ := firstSome_eq_some h
  split at hmc
  · exact absurd hmc (by simp)
  · obtain ⟨dc, _, hdc⟩ := firstSome_eq_some hmc
    split at hdc
    · exact absurd hdc (by simp)
    · split at hdc
      · split at hdc
        · exact mkDate_ok hdc
        · exact absurd hdc (by simp)
      · exact absurd hdc (by simp)

theorem strptimeDateFirst_ok {l : List Char} {d : PyDate}
    (h : strptimeDateFirst l = some d) : dateOk d := by
  unfold strptimeDateFirst at h
  split at h
  next d0 heq => cases h; exact parseYmdWith_ok heq
  next =>
    split at h
    next d0 heq => cases h; exact parseMdySlash_ok heq
    next => exact parseYmdWith_ok h

theorem parseTimePart_ok {withSec : Bool} {y m d : Nat} {l : List Char} {x : PyDateTime}
    (h : parseTimePart withSec y m d l = some x) : dtOk x := by
  unfold parseTimePart at h
  obtain ⟨hc, _, hhc⟩ := firstSome_eq_some h
  split at hhc
  · exact absurd hhc (by simp)
  · obtain ⟨mc, _, hmc⟩ := firstSome_eq_some hhc
    by_cases hw : withSec = true
    · rw [hw] at hmc
      simp only [if_true] at hmc
      split at hmc
      · exact absurd hmc (by simp)
      · obtain ⟨sc, _, hsc⟩ := firstSome_eq_some hmc
        split at hsc
        · exact mkDateTime_ok hsc
        · exact absurd hsc (by simp)
    · rw [Bool.not_eq_true] at hw
      rw [hw] at hmc
      simp only [Bool.false_eq_true, if_false] at hmc
      split at hmc
      · exact mkDateTime_ok hmc
      · exact absurd hmc (by simp)

theorem parseYmdTime_ok {sep : List Char → Option (List Char)} {withSec : Bool}
    {l : List Char} {x : PyDateTime}
    (h : parseYmdTime sep withSec l = some x) : dtOk x := by
  unfold parseYmdTime at h
  split at h
  · exact absurd h (by simp)
  · split at h
    · exact absurd h (by simp)
    · obtain ⟨mc, _, hmc⟩ := firstSome_eq_some h
      split at hmc
      · exact absurd hmc (by simp)
      · obtain ⟨dc, _, hdc⟩ := firstSome_eq_some hmc
        split at hdc
        · exact absurd hdc (by simp)
        · exact parseTimePart_ok hdc

theorem parseYmdAsMidnight_ok {l : List Char} {x : PyDateTime}
    (h : parseYmdAsMidnight l = some x) : dtOk x := by
  unfold parseYmdAsMidnight at h
  split at h
  · exact mkDateTime_ok h
  · exact absurd h (by simp)

theorem strptimeDiffFirst_ok {l : List Char} {x : PyDateTime}
    (h : strptimeDiffFirst l = some x) : dtOk x := by
  unfold strptimeDiffFirst at h
  split at h
  next x0 heq => cases h; exact parseYmdAsMidnight_ok heq
  next =>
    split at h
    next x0 heq => cases h; exact parseYmdTime_ok heq
    next => exact parseYmdTime_ok h

theorem strptimeTimeKeyFirst_ok {l : List Char} {x : PyDateTime}
    (h : strptimeTimeKeyFirst l = some x) : dtOk x := by
  unfold strptimeTimeKeyFirst at h
  split at h
  next x0 heq => cases h; exact parseYmdTime_ok heq
  next =>
    split at h
    next x0 heq => cases h; exact parseYmdTime_ok heq
    next => exact parseYmdTime_ok h

theorem strptimeDateFirst_nil : strptimeDateFirst [] = none := rfl

theorem strptimeDiffFirst_nil : strptimeDiffFirst [] = none := rfl

theorem strptimeTimeKeyFirst_nil : strptimeTimeKeyFirst [] = none := rfl

theorem stripChars_nil : stripChars [] = [] := rfl

theorem transform_record_date_key (r : RawRecord) :
    (transform_record r).derived_data.date_key =
      create_date_key (clean_text r.INCIDENT_DT) := rfl

theorem transform_record_is_valid (r : RawRecord) :
    (transform_record r).is_valid =
      decide (create_date_key (clean_text r.INCIDENT_DT) ≠ -1) := by
  unfold transform_record
  by_cases h : create_date_key (clean_text r.INCIDENT_DT) = -1 <;>
    simp [h, List.filter]

theorem create_date_key_ne_neg_one (v : Option String) :
    create_date_key v ≠ -1 ↔
      ∃ (s : String) (d : PyDate), v = some s ∧
        strptimeDateFirst ((stripChars s.data).take 10) = some d := by
  cases v with
  | none => simp [create_date_key]
  | some s =>
      by_cases hs : s = ""
      · subst hs
        simp [create_date_key, strptimeDateFirst_nil, stripChars_nil]
      · cases hp : strptimeDateFirst ((stripChars s.data).take 10) with
        | some d =>
            simp only [create_date_key, hs, if_false, hp]
            constructor
            · intro _
              exact ⟨s, d, rfl, hp⟩
            · intro _
              simp only [Int.ofNat_eq_coe]
              omega
        | none =>
            simp [create_date_key, hs, hp]

/-- C5: for every string that parses in one of the accepted formats
(`YYYY-MM-DD`, `MM/DD/YYYY`, `YYYY/MM/DD`), `create_date_key` returns the
integer `YYYYMMDD` of the parsed date; the key is injective on distinct
calendar dates; and malformed dates, the empty string, and `None` all
yield `-1`. -/
theorem create_date_key_spec :
    (∀ (s : String) (d : PyDate),
        strptimeDateFirst ((stripChars s.data).take 10) = some d →
          create_date_key (some s) = Int.ofNat (d.year * 10000 + d.month * 100 + d.day)) ∧
    (∀ (t1 t2 : List Char) (d1 d2 : PyDate),
        strptimeDateFirst t1 = some d1 → strptimeDateFirst t2 = some d2 → d1 ≠ d2 →
          Int.ofNat (d1.year * 10000 + d1.month * 100 + d1.day) ≠
            Int.ofNat (d2.year * 10000 + d2.month * 100 + d2.day)) ∧
    (∀ s : String,
        strptimeDateFirst ((stripChars s.data).take 10) = none →
          create_date_key (some s) = -1) ∧
    create_date_key none = -1 ∧ create_date_key (some "") = -1 := by
  refine ⟨?_, ?_, ?_, rfl, by simp [create_date_key]⟩
  · intro s d h
    have hs : s ≠ "" := by
      rintro rfl
      rw [show (stripChars ("" : String).data).take 10 = [] from rfl,
        strptimeDateFirst_nil] at h
      cases h
    simp [create_date_key, hs, h]
  · intro t1 t2 d1 d2 h1 h2 hne hk
    apply hne
    have o1 := strptimeDateFirst_ok h1
    have o2 := strptimeDateFirst_ok h2
    obtain ⟨y1, m1, a1⟩ := d1
    obtain ⟨y2, m2, a2⟩ := d2
    simp only [dateOk] at o1 o2
    simp only [Int.ofNat_eq_coe] at hk
    simp only [PyDate.mk.injEq]
    omega
  · intro s h
    by_cases hs : s = ""
    · subst hs
      simp [create_date_key]
    · simp [create_date_key, hs, h]

/-- Witness for `create_date_key_spec` at concrete dates: a `MM/DD/YYYY`
parse, a rejected non-leap 29 February, and two distinct days mapping to
distinct keys. -/
theorem create_date_key_spec_witness :
    create_date_key (some "01/15/2024") = Int.ofNat (2024 * 10000 + 1 * 100 + 15) ∧
    create_date_key (some "2023-02-29") = -1 ∧
    Int.ofNat (2024 * 10000 + 1 * 100 + 15) ≠ Int.ofNat (2024 * 10000 + 1 * 100 + 16) :=
  ⟨create_date_key_spec.1 "01/15/2024" ⟨2024, 1, 15⟩ (by decide),
   create_date_key_spec.2.2.1 "2023-02-29" (by decide),
   create_date_key_spec.2.1 ("2024-01-15".data) ("2024-01-16".data)
     ⟨2024, 1, 15⟩ ⟨2024, 1, 16⟩ (by decide) (by decide) (by decide)⟩

/-- C10: `create_time_key` is total with range `{-1} ∪ [0, 1439]`;
absent/empty input yields `-1`; any input whose trimmed form has exactly
10 characters yields `0` regardless of content; otherwise the first
matching datetime format yields `hour * 60 + minute`, and a parse failure
yields `-1`. -/
theorem create_time_key_spec :
    (∀ x : Option String, create_time_key x = -1 ∨
        (0 ≤ create_time_key x ∧ create_time_key x ≤ 1439)) ∧
    create_time_key none = -1 ∧
    create_time_key (some "") = -1 ∧
    (∀ s : String, (stripChars s.data).length = 10 → create_time_key (some s) = 0) ∧
    (∀ (s : String) (x : PyDateTime), (stripChars s.data).length ≠ 10 →
        strptimeTimeKeyFirst (stripChars s.data) = some x →
          create_time_key (some s) = Int.ofNat (x.hour * 60 + x.minute)) ∧
    (∀ s : String, (stripChars s.data).length ≠ 10 →
        strptimeTimeKeyFirst (stripChars s.data) = none →
          create_time_key (some s) = -1) := by
  refine ⟨?_, rfl, by simp [create_time_key], ?_, ?_, ?_⟩
  · intro x
    cases x with
    | none => exact Or.inl rfl
    | some s =>
        by_cases hs : s = ""
        · exact Or.inl (by simp [create_time_key, hs])
        · by_cases hlen : (stripChars s.data).length = 10
          · right
            simp [create_time_key, hs, hlen]
          · cases hp : strptimeTimeKeyFirst (stripChars s.data) with
            | some dt =>
                right
                obtain ⟨_, _, _, _, _, _, hh, hm, _⟩ := strptimeTimeKeyFirst_ok hp
                simp only [create_time_key, hs, if_false, hlen, hp]
                constructor
                · simp only [Int.ofNat_eq_coe]
                  omega
                · simp only [Int.ofNat_eq_coe]
                  omega
            | none => exact Or.inl (by simp [create_time_key, hs, hlen, hp])
  · intro s h
    have hs : s ≠ "" := by
      rintro rfl
      exact absurd h (by decide)
    simp [create_time_key, hs, h]
  · intro s x hlen hp
    have hs : s ≠ "" := by
      rintro rfl
      rw [show stripChars ("" : String).data = [] from rfl, strptimeTimeKeyFirst_nil] at hp
      cases hp
    simp [create_time_key, hs, hlen, hp]
  · intro s hlen hp
    by_cases hs : s = ""
    · subst hs
      simp [create_time_key]
    · simp [create_time_key, hs, hlen, hp]

/-- Witness for `create_time_key_spec`: a full datetime resolving to
minute 870 of the day, and a 10-character non-date resolving to 0. -/
theorem create_time_key_spec_witness :
    create_time_key (some "2024-01-15 14:30:00") = Int.ofNat (14 * 60 + 30) ∧
    create_time_key (some "abcdefghij") = 0 :=
  ⟨create_time_key_spec.2.2.2.2.1 "2024-01-15 14:30:00" ⟨2024, 1, 15, 14, 30, 0⟩
     (by decide) (by decide),
   create_time_key_spec.2.2.2.1 "abcdefghij" (by decide)⟩

/-- C2: a transformed record is valid exactly when its derived date key is
not `-1`, which holds exactly when the cleaned `INCIDENT_DT` parses in an
accepted date format; validity depends on no field other than
`INCIDENT_DT`, so no other field's failure can reject a record. -/
theorem transform_record_validity :
    ∀ r : RawRecord,
      ((transform_record r).is_valid = true ↔
          (transform_record r).derived_data.date_key ≠ -1) ∧
      ((transform_record r).derived_data.date_key ≠ -1 ↔
          ∃ (s : String) (d : PyDate), clean_text r.INCIDENT_DT = some s ∧
            strptimeDateFirst ((stripChars s.data).take 10) = some d) ∧
      (∀ r2 : RawRecord, r2.INCIDENT_DT = r.INCIDENT_DT →
          (transform_record r2).is_valid = (transform_record r).is_valid) := by
  intro r
  refine ⟨?_, ?_, ?_⟩
  · rw [transform_record_is_valid, transform_record_date_key]
    simp
  · rw [transform_record_date_key]
    exact create_date_key_ne_neg_one _
  · intro r2 h
    rw [transform_record_is_valid, transform_record_is_valid, h]

/-- Witness for `transform_record_validity`: a record with a valid date is
accepted, and changing only non-date fields leaves validity unchanged. -/
theorem transform_record_validity_witness :
    (transform_record { INCIDENT_DT := some "2024-01-15",
                        INCIDENT_COUNTY := some "##bad##",
                        PROVIDER_TO_SCENE_MINS := some "-3",
                        INJURY_FLG := some "banana" } : TransformResult).is_valid =
      (transform_record { INCIDENT_DT := some "2024-01-15" } : TransformResult).is_valid ∧
    (transform_record { INCIDENT_DT := some "2024-01-15" } : TransformResult).is_valid = true :=
  ⟨(transform_record_validity { INCIDENT_DT := some "2024-01-15" }).2.2
     { INCIDENT_DT := some "2024-01-15", INCIDENT_COUNTY := some "##bad##",
       PROVIDER_TO_SCENE_MINS := some "-3", INJURY_FLG := some "banana" }
     rfl,
   (transform_record_validity { INCIDENT_DT := some "2024-01-15" }).1.mpr (by decide)⟩

/-- C4: resolving an absent or empty natural key returns `-1` and returns
the resolver state (cache and table) unchanged, for the shared
string-keyed `get_or_create` body and for the composite provider-org
variant alike. -/
theorem get_or_create_unknown_member :
    (∀ st : DimState, get_or_create st none = (-1, st)) ∧
    (∀ st : DimState, get_or_create st (some "") = (-1, st)) ∧
    (∀ (st : DimState) (service : Option String),
        get_or_create_provider_org st none service = (-1, st)) ∧
    (∀ (st : DimState) (service : Option String),
        get_or_create_provider_org st (some "") service = (-1, st)) :=
  ⟨fun _ => rfl,
   fun st => by simp [get_or_create],
   fun _ _ => rfl,
   fun st service => by simp [get_or_create_provider_org]⟩

/-- C3: resolving the same non-empty natural key twice in a row returns
the same surrogate key both times, and the second call leaves the
resolver state untouched (a pure cache hit); likewise for the composite
provider-organization key. -/
theorem get_or_create_stable :
    (∀ (st : DimState) (n : String), n ≠ "" →
        (get_or_create (get_or_create st (some n)).2 (some n)).1 =
            (get_or_create st (some n)).1 ∧
          (get_or_create (get_or_create st (some n)).2 (some n)).2 =
            (get_or_create st (some n)).2) ∧
    (∀ (st : DimState) (n : String) (service : Option String), n ≠ "" →
        (get_or_create_provider_org
            (get_or_create_provider_org st (some n) service).2 (some n) service).1 =
            (get_or_create_provider_org st (some n) service).1 ∧
          (get_or_create_provider_org
              (get_or_create_provider_org st (some n) service).2 (some n) service).2 =
            (get_or_create_provider_org st (some n) service).2) := by
  constructor
  · intro st n hn
    cases hl : cacheLookup st.cache n with
    | some key =>
        simp [get_or_create, hn, hl]
    | none =>
        simp [get_or_create, hn, hl, cacheLookup]
  · intro st n service hn
    cases hl : cacheLookup st.cache
        (n ++ "||" ++ (match service with
          | some sv => if sv = "" then "" else sv
          | none => "")) with
    | some key =>
        simp [get_or_create_provider_org, hn, hl]
    | none =>
        simp [get_or_create_provider_org, hn, hl, cacheLookup]

/-- Witness for `get_or_create_stable`: from an empty dimension,
resolving "LAKE" twice yields the same key. -/
theorem get_or_create_stable_witness :
    (get_or_create (get_or_create ⟨[], [], 1⟩ (some "LAKE")).2 (some "LAKE")).1 =
        (get_or_create ⟨[], [], 1⟩ (some "LAKE")).1 ∧
      (get_or_create ⟨[], [], 1⟩ (some "LAKE")).1 = 1 :=
  ⟨(get_or_create_stable.1 ⟨[], [], 1⟩ "LAKE" (by decide)).1, by decide⟩

theorem nextDay_year_ge {d : PyDate} (h : 1 ≤ d.year) : 1 ≤ (nextDay d).year := by
  unfold nextDay
  split_ifs <;> simp <;> omega

theorem genDates_year_ge :
    ∀ (fuel : Nat) (cur last : PyDate), 1 ≤ cur.year →
      ∀ d ∈ genDates fuel cur last, 1 ≤ d.year := by
  intro fuel
  induction fuel with
  | zero =>
      intro cur last _ d hd
      simp [genDates] at hd
  | succ n ih =>
      intro cur last h d hd
      simp only [genDates] at hd
      by_cases hle : dateLe cur last = true
      · rw [if_pos hle] at hd
        rcases List.mem_cons.mp hd with rfl | hd2
        · exact h
        · exact ih (nextDay cur) last (nextDay_year_ge h) d hd2
      · rw [if_neg hle] at hd
        simp at hd

theorem dateDimKeys_pos : ∀ k ∈ dateDimKeys, 0 < k := by
  intro k hk
  unfold dateDimKeys at hk
  simp only [List.mem_map] at hk
  obtain ⟨d, hd, rfl⟩ := hk
  have hy := genDates_year_ge 6300 ⟨2014, 1, 1⟩ ⟨2030, 12, 31⟩ (by decide) d hd
  unfold dateKeyOfDate
  simp only [Int.ofNat_eq_coe]
  omega

set_option maxRecDepth 4000 in
theorem dateDimKeys_mem : (20140101 : Int) ∈ dateDimKeys := by decide

set_option maxRecDepth 4000 in
theorem timeDimKeys_mem : (0 : Int) ∈ timeDimKeys := by decide

/-- C7: repeating the date- and time-dimension population against a store
those populations have already seeded inserts nothing — both are
idempotent, and a table already holding any non-sentinel row is returned
untouched. -/
theorem populate_dimensions_idem :
    (∀ dt : List Int, 0 < (dt.filter (fun k => 0 < k)).length →
        populate_date_dimension dt = dt) ∧
    (∀ dt : List Int,
        populate_date_dimension (populate_date_dimension dt) =
          populate_date_dimension dt) ∧
    (∀ tt : List Int, 0 < (tt.filter (fun k => 0 ≤ k)).length →
        populate_time_dimension tt = tt) ∧
    (∀ tt : List Int,
        populate_time_dimension (populate_time_dimension tt) =
          populate_time_dimension tt) := by
  refine ⟨?_, ?_, ?_, ?_⟩
  · intro dt h
    simp [populate_date_dimension, h]
  · intro dt
    by_cases h : 0 < (dt.filter (fun k => 0 < k)).length
    · simp [populate_date_dimension, h]
    · have e1 : populate_date_dimension dt = dt ++ dateDimKeys := by
        simp [populate_date_dimension, h]
      have h2 : 0 < ((dt ++ dateDimKeys).filter (fun k => 0 < k)).length := by
        have hm : (20140101 : Int) ∈ (dt ++ dateDimKeys).filter (fun k => 0 < k) :=
          List.mem_filter.mpr
            ⟨List.mem_append_right _ dateDimKeys_mem, by decide⟩
        exact List.length_pos.mpr (List.ne_nil_of_mem hm)
      rw [e1, populate_date_dimension, if_pos h2]
  · intro tt h
    simp [populate_time_dimension, h]
  · intro tt
    by_cases h : 0 < (tt.filter (fun k => 0 ≤ k)).length
    · simp [populate_time_dimension, h]
    · have e1 : populate_time_dimension tt = tt ++ timeDimKeys := by
        simp [populate_time_dimension, h]
      have h2 : 0 < ((tt ++ timeDimKeys).filter (fun k => 0 ≤ k)).length := by
        have hm : (0 : Int) ∈ (tt ++ timeDimKeys).filter (fun k => 0 ≤ k) :=
          List.mem_filter.mpr
            ⟨List.mem_append_right _ timeDimKeys_mem, by decide⟩
        exact List.length_pos.mpr (List.ne_nil_of_mem hm)
      rw [e1, populate_time_dimension, if_pos h2]

/-- Witness for `populate_dimensions_idem`: seeded single-row tables are
returned unchanged. -/
theorem populate_dimensions_idem_witness :
    populate_date_dimension [20240115] = [20240115] ∧
    populate_time_dimension [0] = [0] :=
  ⟨populate_dimensions_idem.1 [20240115] (by decide),
   populate_dimensions_idem.2.2.1 [0] (by decide)⟩

/-- C6: when both endpoints parse in an accepted format and end is not
before start, the derived measure is the seconds difference divided by 60
rounded to two decimals; when end precedes start, or either endpoint is
absent, empty or unparseable, the measure is `None`. -/
theorem calculate_time_diff_minutes_spec :
    (∀ (s e : String) (st en : PyDateTime),
        strptimeDiffFirst (stripChars s.data) = some st →
        strptimeDiffFirst (stripChars e.data) = some en →
        dtTotalSeconds st ≤ dtTotalSeconds en →
          calculate_time_diff_minutes (some s) (some e) =
            some (round2
              ((((dtTotalSeconds en : Int) - (dtTotalSeconds st : Int) : Int) : ℚ) / 60))) ∧
    (∀ (s e : String) (st en : PyDateTime),
        strptimeDiffFirst (stripChars s.data) = some st →
        strptimeDiffFirst (stripChars e.data) = some en →
        dtTotalSeconds en < dtTotalSeconds st →
          calculate_time_diff_minutes (some s) (some e) = none) ∧
    (∀ e, calculate_time_diff_minutes none e = none) ∧
    (∀ s, calculate_time_diff_minutes s none = none) ∧
    (∀ e, calculate_time_diff_minutes (some "") e = none) ∧
    (∀ s, calculate_time_diff_minutes s (some "") = none) ∧
    (∀ (s e : String), strptimeDiffFirst (stripChars s.data) = none →
        calculate_time_diff_minutes (some s) (some e) = none) ∧
    (∀ (s e : String), strptimeDiffFirst (stripChars e.data) = none →
        calculate_time_diff_minutes (some s) (some e) = none) := by
  refine ⟨?_, ?_, ?_, ?_, ?_, ?_, ?_, ?_⟩
  · intro s e st en hs he hle
    have hs0 : s ≠ "" := by
      rintro rfl
      rw [show stripChars ("" : String).data = [] from rfl, strptimeDiffFirst_nil] at hs
      cases hs
    have he0 : e ≠ "" := by
      rintro rfl
      rw [show stripChars ("" : String).data = [] from rfl, strptimeDiffFirst_nil] at he
      cases he
    have hpos : (0 : Int) ≤ (dtTotalSeconds en : Int) - (dtTotalSeconds st : Int) := by
      omega
    simp [calculate_time_diff_minutes, hs0, he0, hs, he, hpos]
  · intro s e st en hs he hlt
    have hs0 : s ≠ "" := by
      rintro rfl
      rw [show stripChars ("" : String).data = [] from rfl, strptimeDiffFirst_nil] at hs
      cases hs
    have he0 : e ≠ "" := by
      rintro rfl
      rw [show stripChars ("" : String).data = [] from rfl, strptimeDiffFirst_nil] at he
      cases he
    have hneg : ¬((0 : Int) ≤ (dtTotalSeconds en : Int) - (dtTotalSeconds st : Int)) := by
      omega
    simp [calculate_time_diff_minutes, hs0, he0, hs, he, hneg]
  · intro e
    cases e <;> rfl
  · intro s
    cases s <;> rfl
  · intro e
    cases e with
    | none => rfl
    | some t => simp [calculate_time_diff_minutes]
  · intro s
    cases s with
    | none => rfl
    | some t => simp [calculate_time_diff_minutes]
  · intro s e hs
    by_cases hs0 : s = ""
    · subst hs0
      simp [calculate_time_diff_minutes]
    · by_cases he0 : e = ""
      · subst he0
        simp [calculate_time_diff_minutes]
      · simp [calculate_time_diff_minutes, hs0, he0, hs]
  · intro s e he
    by_cases hs0 : s = ""
    · subst hs0
      simp [calculate_time_diff_minutes]
    · by_cases he0 : e = ""
      · subst he0
        simp [calculate_time_diff_minutes]
      · cases hps : strptimeDiffFirst (stripChars s.data) with
        | none => simp [calculate_time_diff_minutes, hs0, he0, hps, he]
        | some st => simp [calculate_time_diff_minutes, hs0, he0, hps, he]

/-- Witness for `calculate_time_diff_minutes_spec`: an eight-minute pair
resolving through the full-datetime format. -/
theorem calculate_time_diff_minutes_spec_witness :
    strptimeDiffFirst (stripChars ("2024-01-15 14:30:00" : String).data) =
        some ⟨2024, 1, 15, 14, 30, 0⟩ ∧
    strptimeDiffFirst (stripChars ("2024-01-15 14:38:00" : String).data) =
        some ⟨2024, 1, 15, 14, 38, 0⟩ ∧
    dtTotalSeconds ⟨2024, 1, 15, 14, 30, 0⟩ ≤ dtTotalSeconds ⟨2024, 1, 15, 14, 38, 0⟩ ∧
    calculate_time_diff_minutes (some "2024-01-15 14:30:00") (some "2024-01-15 14:38:00") =
      some (round2
        ((((dtTotalSeconds ⟨2024, 1, 15, 14, 38, 0⟩ : Int) -
            (dtTotalSeconds ⟨2024, 1, 15, 14, 30, 0⟩ : Int) : Int) : ℚ) / 60)) :=
  ⟨by decide, by decide, by decide,
   calculate_time_diff_minutes_spec.1 "2024-01-15 14:30:00" "2024-01-15 14:38:00"
     ⟨2024, 1, 15, 14, 30, 0⟩ ⟨2024, 1, 15, 14, 38, 0⟩
     (by decide) (by decide) (by decide)⟩

theorem dropWhile_head?_false {α : Type} {p : α → Bool} {l : List α} {c : α}
    (h : (l.dropWhile p).head? = some c) : p c = false := by
  have hx := List.head?_dropWhile_not p l
  rw [h] at hx
  exact hx

theorem dropWhile_getLast?_eq {α : Type} {p : α → Bool} :
    ∀ {l : List α}, l.dropWhile p ≠ [] → (l.dropWhile p).getLast? = l.getLast? := by
  intro l
  induction l with
  | nil => intro h; simp [List.dropWhile] at h
  | cons a t ih =>
      intro h
      rw [List.dropWhile_cons] at h ⊢
      by_cases hpa : p a = true
      · rw [if_pos hpa] at h ⊢
        rw [ih h]
        cases t with
        | nil => simp [List.dropWhile] at h
        | cons b u => rw [List.getLast?_cons_cons]
      · rw [if_neg hpa]

theorem stripChars_head?_false {l : List Char} {c : Char}
    (h : (stripChars l).head? = some c) : pyIsSpace c = false := by
  unfold stripChars at h
  rw [List.head?_reverse] at h
  have hne : (l.dropWhile pyIsSpace).reverse.dropWhile pyIsSpace ≠ [] := by
    intro e
    rw [e] at h
    cases h
  rw [dropWhile_getLast?_eq hne, List.getLast?_reverse] at h
  exact dropWhile_head?_false h

theorem stripChars_getLast?_false {l : List Char} {c : Char}
    (h : (stripChars l).getLast? = some c) : pyIsSpace c = false := by
  unfold stripChars at h
  rw [List.getLast?_reverse] at h
  exact dropWhile_head?_false h

/-- C8 counterexample: `clean_text` does not collapse internal whitespace
runs — the two inner blanks of "LAKE  COUNTY" survive cleaning, so the
claimed collapse to "LAKE COUNTY" does not happen. -/
theorem clean_text_no_collapse :
    clean_text (some "LAKE  COUNTY") = some "LAKE  COUNTY" ∧
    some "LAKE  COUNTY" ≠ some "LAKE COUNTY" :=
  ⟨by decide, by decide⟩

/-- C8 (amended): the cleaning step trims leading and trailing whitespace
and maps an empty or whitespace-only value to absent, and "  LAKE  "
cleans to "LAKE"; internal whitespace runs are preserved unchanged, not
collapsed. -/
theorem clean_text_spec :
    clean_text none = none ∧
    (∀ s : String, clean_text (some s) =
        if pyStrip s = "" then none else some (pyStrip s)) ∧
    (∀ (s t : String), clean_text (some s) = some t →
        (∀ c, t.data.head? = some c → pyIsSpace c = false) ∧
        (∀ c, t.data.getLast? = some c → pyIsSpace c = false)) ∧
    clean_text (some "  LAKE  ") = some "LAKE" := by
  refine ⟨rfl, fun s => rfl, ?_, by decide⟩
  intro s t h
  have ht : t = pyStrip s := by
    unfold clean_text at h
    by_cases hs : pyStrip s = ""
    · simp [hs] at h
    · simp only [hs, if_false] at h
      exact (Option.some.inj h).symm
  subst ht
  constructor
  · intro c hc
    rw [show (pyStrip s).data = stripChars s.data from rfl] at hc
    exact stripChars_head?_false hc
  · intro c hc
    rw [show (pyStrip s).data = stripChars s.data from rfl] at hc
    exact stripChars_getLast?_false hc

/-- Witness for `clean_text_spec`: the cleaned "  LAKE  " starts with a
non-whitespace character. -/
theorem clean_text_spec_witness :
    clean_text (some "  LAKE  ") = some "LAKE" ∧ pyIsSpace 'L' = false :=
  ⟨by decide,
   (clean_text_spec.2.2.1 "  LAKE  " "LAKE" (by decide)).1 'L' (by decide)⟩

/-- C9 counterexample: the raw value "not a datetime" is neither a bare
10-character date nor parseable by any accepted datetime format, yet the
fact row built for the (accepted) record carries it verbatim instead of
null. -/
theorem fact_timestamp_counterexample :
    (stripChars ("not a datetime" : String).data).length ≠ 10 ∧
    strptimeTimeKeyFirst (stripChars ("not a datetime" : String).data) = none ∧
    strptimeDiffFirst (stripChars ("not a datetime" : String).data) = none ∧
    (transform_record { INCIDENT_DT := some "2024-01-15",
                        UNIT_NOTIFIED_BY_DISPATCH_DT := some "not a datetime" }
        : TransformResult).is_valid = true ∧
    (build_fact_record emptyLoader
        (transform_record { INCIDENT_DT := some "2024-01-15",
                            UNIT_NOTIFIED_BY_DISPATCH_DT := some "not a datetime" })).1.unit_notified_dt =
      some "not a datetime" :=
  ⟨by decide, by decide, by decide, by decide, by decide⟩

/-- C9 (amended): the five event-timestamp fields are carried into the
fact row exactly as `clean_text` leaves them — absent or whitespace-only
values become null, every other value is kept verbatim after trimming,
parseable or not — and the record's validity never depends on these five
fields. -/
theorem fact_timestamps_passthrough :
    ∀ (r : RawRecord) (dl : LoaderState),
      ((transform_record r).cleaned_data.unit_notified_dt =
          clean_text r.UNIT_NOTIFIED_BY_DISPATCH_DT ∧
        (transform_record r).cleaned_data.unit_arrived_scene_dt =
          clean_text r.UNIT_ARRIVED_ON_SCENE_DT ∧
        (transform_record r).cleaned_data.unit_arrived_patient_dt =
          clean_text r.UNIT_ARRIVED_TO_PATIENT_DT ∧
        (transform_record r).cleaned_data.unit_left_scene_dt =
          clean_text r.UNIT_LEFT_SCENE_DT ∧
        (transform_record r).cleaned_data.patient_arrived_dest_dt =
          clean_text r.PATIENT_ARRIVED_DESTINATION_DT) ∧
      ((build_fact_record dl (transform_record r)).1.unit_notified_dt =
          clean_text r.UNIT_NOTIFIED_BY_DISPATCH_DT ∧
        (build_fact_record dl (transform_record r)).1.unit_arrived_scene_dt =
          clean_text r.UNIT_ARRIVED_ON_SCENE_DT ∧
        (build_fact_record dl (transform_record r)).1.unit_arrived_patient_dt =
          clean_text r.UNIT_ARRIVED_TO_PATIENT_DT ∧
        (build_fact_record dl (transform_record r)).1.unit_left_scene_dt =
          clean_text r.UNIT_LEFT_SCENE_DT ∧
        (build_fact_record dl (transform_record r)).1.patient_arrived_dest_dt =
          clean_text r.PATIENT_ARRIVED_DESTINATION_DT) ∧
      (∀ v1 v2 v3 v4 v5 : Option String,
          (transform_record { r with
                              UNIT_NOTIFIED_BY_DISPATCH_DT := v1,
                              UNIT_ARRIVED_ON_SCENE_DT := v2,
                              UNIT_ARRIVED_TO_PATIENT_DT := v3,
                              UNIT_LEFT_SCENE_DT := v4,
                              PATIENT_ARRIVED_DESTINATION_DT := v5 }).is_valid =
            (transform_record r).is_valid) := by
  intro r dl
  refine ⟨⟨rfl, rfl, rfl, rfl, rfl⟩, ⟨rfl, rfl, rfl, rfl, rfl⟩, ?_⟩
  intro v1 v2 v3 v4 v5
  rw [transform_record_is_valid, transform_record_is_valid]

/-- C1: the transform-and-load loop of `run_etl` counts every rejected
record and produces no fact row for it, but it persists no ErrorLog row —
`run_etl` never calls `ETLLogger.log_error`, so the error log is empty
after every batch; in particular one record with an empty `INCIDENT_DT`
yields one rejection, an empty fact batch, an untouched dimension state,
and an empty error log, with the rejection diagnostics left unpersisted
inside the in-memory `TransformResult`. -/
theorem run_etl_step5_never_logs :
    (∀ (records : List RawRecord) (dl : LoaderState),
        (run_etl_step5 records dl).error_log = []) ∧
    (∀ dl : LoaderState,
        run_etl_step5 [{ INCIDENT_DT := some "", source_row_num := some 1 }] dl =
          ⟨[], 1, [], dl⟩) ∧
    (transform_record { INCIDENT_DT := some "", source_row_num := some 1 }
        : TransformResult).is_valid = false ∧
    (transform_record { INCIDENT_DT := some "", source_row_num := some 1 }
        : TransformResult).errors =
      [("INCIDENT_DT", "INVALID_DATE", "Cannot parse date: ")] := by
  have hlog : ∀ (records : List RawRecord) (dl : LoaderState) (facts : List FactRecord)
      (rej : Nat) (errlog : List ErrorRecord),
      (run_transform_load records dl facts rej errlog).error_log = errlog := by
    intro records
    induction records with
    | nil => intro dl facts rej errlog; rfl
    | cons r rest ih =>
        intro dl facts rej errlog
        rw [run_transform_load]
        split
        · exact ih _ _ _ _
        · exact ih _ _ _ _
  refine ⟨fun records dl => hlog records dl [] 0 [], ?_, by decide, by decide⟩
  intro dl
  have hv : (transform_record { INCIDENT_DT := some "", source_row_num := some 1 }
      : TransformResult).is_valid = false := by decide
  simp [run_etl_step5, run_transform_load, hv]

end EtlModel
